import Mathlib

/-!
Verification of the real-time room broadcaster of LovePing Server
(`src/main.py`, lines 306-323).

The Python core is:

  rooms: Dict[str, set] = {}

  @app.websocket("/ws/{room}")
  async def ws_room(ws: WebSocket, room: str):
      await ws.accept()
      rooms.setdefault(room, set()).add(ws)          -- Join
      try:
          while True:
              msg = await ws.receive_text()
              for client in list(rooms.get(room, set())):   -- Broadcast fan-out
                  try:
                      await client.send_text(msg)
                  except Exception:
                      pass
      except WebSocketDisconnect:
          pass
      finally:
          rooms.get(room, set()).discard(ws)         -- Leave

Connections are modelled as naturals, room keys as strings, messages as
strings.  The registry `rooms` (a Python dict from room key to a set of
connections) is modelled as an association list from `String` to
`Finset Nat` with first-match lookup; dict keys are unique, which the
operations preserve.  `list(set)` enumerates the set in an arbitrary
order; the model enumerates it in ascending order, a deterministic
representative of that unspecified order.  A per-recipient
`send_text` either succeeds or raises; the set `bad` of connections
whose send raises is passed explicitly, and `sendText` returns
`Except`, mirroring `Ok | Error` of the channel interface.
-/

namespace LovePing

/-- The registry type of `rooms: Dict[str, set]`: an association list from
room key to membership set, with unique keys maintained by the operations. -/
abbrev Registry := List (String × Finset Nat)

/-- Dict lookup `rooms.get(room)`: `none` when the key is absent. -/
def lookupRoom : Registry → String → Option (Finset Nat)
  | [], _ => none
  | (k, s) :: rest, key => if k = key then some s else lookupRoom rest key

/-- `rooms.get(room, set())`: the membership set of a room, the empty set
when the room key is absent from the dict. -/
def roomMembers (r : Registry) (key : String) : Finset Nat :=
  (lookupRoom r key).getD ∅

/-- `rooms.setdefault(room, set()).add(ws)`: insert the connection into the
room's membership set, creating the entry when the key is absent. -/
def join : Registry → String → Nat → Registry
  | [], key, c => [(key, {c})]
  | (k, s) :: rest, key, c =>
    if k = key then (k, insert c s) :: rest else (k, s) :: join rest key c

/-- `rooms.get(room, set()).discard(ws)`: remove the connection from the
room's membership set when the entry exists; when the key is absent the
discard acts on a fresh temporary set and the dict is untouched.  The
entry is never deleted, even when its set becomes empty. -/
def leave : Registry → String → Nat → Registry
  | [], _, _ => []
  | (k, s) :: rest, key, c =>
    if k = key then (k, s.erase c) :: rest else (k, s) :: leave rest key c

/-- Enumerate a multiset of naturals as an ascending list.  Insertion sort
is structurally recursive, so concrete snapshots reduce inside the kernel. -/
def msort (m : Multiset Nat) : List Nat :=
  Quot.liftOn m (fun l => l.insertionSort (· ≤ ·)) fun l l' h =>
    List.eq_of_perm_of_sorted
      ((List.perm_insertionSort _ l).trans
        (h.trans (List.perm_insertionSort _ l').symm))
      (List.sorted_insertionSort _ l) (List.sorted_insertionSort _ l')

/-- `list(rooms.get(room, set()))`: the snapshot of the membership taken at
the start of the fan-out loop.  Python enumerates a set in an arbitrary
order; the model fixes the ascending order as a deterministic
representative of that unspecified order. -/
def roomSnapshot (r : Registry) (key : String) : List Nat :=
  msort (roomMembers r key).val

/-- `await client.send_text(msg)`: succeeds, or raises when the recipient's
channel is broken (`client ∈ bad`). -/
def sendText (bad : Finset Nat) (client : Nat) (msg : String) :
    Except String Unit :=
  if client ∈ bad then Except.error "ConnectionClosed" else Except.ok ()

/-- One iteration of the fan-out loop body
`try: await client.send_text(msg) except Exception: pass`, threading the
registry and accumulating the successful deliveries `(client, payload)`.
A raising send is caught and contributes nothing. -/
def fanoutStep (bad : Finset Nat) (msg : String)
    (st : Registry × List (Nat × String)) (client : Nat) :
    Registry × List (Nat × String) :=
  match sendText bad client msg with
  | Except.ok _ => (st.1, st.2 ++ [(client, msg)])
  | Except.error _ => (st.1, st.2)

/-- The whole fan-out of one received message inside `ws_room`:
`for client in list(rooms.get(room, set())): try ... except: pass`.
Returns the registry after the loop and the list of successful
deliveries.  `sender` is `ws`, the connection whose `receive_text`
returned `msg`; the loop body never mentions it. -/
def wsBroadcast (r : Registry) (key : String) (sender : Nat) (msg : String)
    (bad : Finset Nat) : Registry × List (Nat × String) :=
  (roomSnapshot r key).foldl (fanoutStep bad msg) (r, [])

/-! ### Basic lemmas about the snapshot enumeration -/

theorem mem_msort {m : Multiset Nat} {a : Nat} : a ∈ msort m ↔ a ∈ m :=
  Quot.inductionOn m fun l => by
    show a ∈ l.insertionSort (· ≤ ·) ↔ a ∈ (l : Multiset Nat)
    simp [List.mem_insertionSort]

theorem msort_nodup {m : Multiset Nat} : m.Nodup → (msort m).Nodup :=
  Quot.inductionOn m fun l hl =>
    ((List.perm_insertionSort _ l).nodup_iff).2 (Multiset.coe_nodup.1 hl)

theorem mem_roomSnapshot {r : Registry} {key : String} {a : Nat} :
    a ∈ roomSnapshot r key ↔ a ∈ roomMembers r key :=
  mem_msort.trans Finset.mem_def.symm

theorem roomSnapshot_nodup (r : Registry) (key : String) :
    (roomSnapshot r key).Nodup :=
  msort_nodup (roomMembers r key).nodup

theorem roomSnapshot_eq_nil {r : Registry} {key : String}
    (h : roomMembers r key = ∅) : roomSnapshot r key = [] :=
  List.eq_nil_iff_forall_not_mem.2 fun a ha => by
    rw [mem_roomSnapshot, h] at ha
    exact absurd ha (Finset.not_mem_empty a)

/-! ### The fan-out loop -/

theorem fanoutStep_eq (bad : Finset Nat) (msg : String)
    (st : Registry × List (Nat × String)) (client : Nat) :
    fanoutStep bad msg st client =
      (st.1, st.2 ++ if client ∈ bad then [] else [(client, msg)]) := by
  by_cases h : client ∈ bad <;> simp [fanoutStep, sendText, h]

theorem foldl_fanout_fst (bad : Finset Nat) (msg : String) (l : List Nat) :
    ∀ st : Registry × List (Nat × String),
      (l.foldl (fanoutStep bad msg) st).1 = st.1 := by
  induction l with
  | nil => intro st; rfl
  | cons c l ih =>
    intro st
    rw [List.foldl_cons, ih, fanoutStep_eq]

theorem foldl_fanout_snd (bad : Finset Nat) (msg : String) (l : List Nat) :
    ∀ st : Registry × List (Nat × String),
      (l.foldl (fanoutStep bad msg) st).2 =
        st.2 ++ l.filterMap (fun c => if c ∈ bad then none else some (c, msg)) := by
  induction l with
  | nil => intro st; simp
  | cons c l ih =>
    intro st
    rw [List.foldl_cons, ih, fanoutStep_eq, List.filterMap_cons]
    by_cases h : c ∈ bad <;> simp [h]

theorem wsBroadcast_fst (r : Registry) (key : String) (sender : Nat)
    (msg : String) (bad : Finset Nat) :
    (wsBroadcast r key sender msg bad).1 = r :=
  foldl_fanout_fst bad msg (roomSnapshot r key) (r, [])

theorem wsBroadcast_snd (r : Registry) (key : String) (sender : Nat)
    (msg : String) (bad : Finset Nat) :
    (wsBroadcast r key sender msg bad).2 =
      (roomSnapshot r key).filterMap
        (fun c => if c ∈ bad then none else some (c, msg)) := by
  rw [wsBroadcast, foldl_fanout_snd]
  simp

theorem mem_wsBroadcast_snd {r : Registry} {key : String} {sender : Nat}
    {msg : String} {bad : Finset Nat} {p : Nat × String} :
    p ∈ (wsBroadcast r key sender msg bad).2 ↔
      ∃ c, c ∈ roomMembers r key ∧ c ∉ bad ∧ p = (c, msg) := by
  rw [wsBroadcast_snd, List.mem_filterMap]
  constructor
  · rintro ⟨c, hc, hfc⟩
    by_cases h : c ∈ bad
    · simp [h] at hfc
    · simp [h] at hfc
      exact ⟨c, mem_roomSnapshot.1 hc, h, hfc.symm⟩
  · rintro ⟨c, hc, hb, rfl⟩
    exact ⟨c, mem_roomSnapshot.2 hc, by simp [hb]⟩

theorem wsBroadcast_snd_nodup (r : Registry) (key : String) (sender : Nat)
    (msg : String) (bad : Finset Nat) :
    ((wsBroadcast r key sender msg bad).2).Nodup := by
  rw [wsBroadcast_snd]
  refine List.Nodup.filterMap ?_ (roomSnapshot_nodup r key)
  intro a a' b hb hb'
  by_cases h : a ∈ bad
  · simp [h] at hb
  · by_cases h' : a' ∈ bad
    · simp [h'] at hb'
    · simp [h] at hb
      simp [h'] at hb'
      rw [← hb'] at hb
      exact congrArg Prod.fst hb

/-! ### Registry operations -/

theorem lookupRoom_join (r : Registry) (key : String) (c : Nat) :
    lookupRoom (join r key c) key = some (insert c (roomMembers r key)) := by
  induction r with
  | nil => simp [join, lookupRoom, roomMembers]
  | cons e rest ih =>
    obtain ⟨k, s⟩ := e
    by_cases h : k = key
    · subst h
      simp [join, lookupRoom, roomMembers]
    · simpa [join, lookupRoom, roomMembers, h] using ih

theorem join_join (r : Registry) (key : String) (c : Nat) :
    join (join r key c) key c = join r key c := by
  induction r with
  | nil => simp [join]
  | cons e rest ih =>
    obtain ⟨k, s⟩ := e
    by_cases h : k = key
    · subst h
      simp [join, Finset.insert_idem]
    · simp [join, h, ih]

theorem leave_leave (r : Registry) (key : String) (c : Nat) :
    leave (leave r key c) key c = leave r key c := by
  induction r with
  | nil => rfl
  | cons e rest ih =>
    obtain ⟨k, s⟩ := e
    by_cases h : k = key
    · subst h
      simp [leave, Finset.erase_idem]
    · simp [leave, h, ih]

theorem leave_of_not_mem {r : Registry} {key : String} {c : Nat}
    (h : c ∉ roomMembers r key) : leave r key c = r := by
  induction r with
  | nil => rfl
  | cons e rest ih =>
    obtain ⟨k, s⟩ := e
    by_cases hk : k = key
    · subst hk
      rw [roomMembers, lookupRoom] at h
      simp at h
      simp [leave, Finset.erase_eq_of_not_mem h]
    · rw [roomMembers, lookupRoom, if_neg hk] at h
      simp [leave, hk, ih h]

theorem lookupRoom_leave (r : Registry) (key : String) (c : Nat)
    (s : Finset Nat) (h : lookupRoom r key = some s) :
    lookupRoom (leave r key c) key = some (s.erase c) := by
  induction r with
  | nil => simp [lookupRoom] at h
  | cons e rest ih =>
    obtain ⟨k, s1⟩ := e
    by_cases hk : k = key
    · subst hk
      rw [lookupRoom, if_pos rfl] at h
      rw [leave, if_pos rfl, lookupRoom, if_pos rfl, Option.some_inj.1 h]
    · rw [lookupRoom, if_neg hk] at h
      rw [leave, if_neg hk, lookupRoom, if_neg hk]
      exact ih h

theorem count_one_of_nodup_of_mem {α : Type} [BEq α] [LawfulBEq α]
    {l : List α} {a : α} (hnd : l.Nodup) (h : a ∈ l) : l.count a = 1 := by
  induction l with
  | nil => exact absurd h (List.not_mem_nil a)
  | cons b l ih =>
    rw [List.nodup_cons] at hnd
    rw [List.count_cons]
    rcases List.mem_cons.1 h with h | h
    · subst h
      rw [List.count_eq_zero.2 hnd.1, if_pos (beq_self_eq_true a)]
    · have hne : b ≠ a := fun hba => hnd.1 (hba ▸ h)
      rw [ih hnd.2 h, if_neg (by simpa using hne)]

/-! ### The claims -/

/-- Claim C1, counterexample: with connections 0 and 1 both joined to room
"love", the fan-out of message "hi" received from sender 0 invokes Send on
connection 0 itself and delivers "hi" back to it — the loop
`for client in list(rooms.get(room, set()))` iterates over every member
with no exclusion of the sender, refuting the claim that Broadcast never
delivers a message to the connection that sent it. -/
theorem broadcast_delivers_to_sender :
    (0, "hi") ∈ (wsBroadcast (join (join ([] : Registry) "love" 0) "love" 1)
      "love" 0 "hi" ∅).2 := by decide

/-- Claim C1, amended: the fan-out of a message received from
`senderConnection` sends it to every current member of the room, the sender
included — when the sender is a member and its own send does not fail, the
sender receives its own message back. -/
theorem broadcast_reaches_sender (r : Registry) (key : String) (sender : Nat)
    (msg : String) (bad : Finset Nat) (hmem : sender ∈ roomMembers r key)
    (hok : sender ∉ bad) :
    (sender, msg) ∈ (wsBroadcast r key sender msg bad).2 :=
  mem_wsBroadcast_snd.2 ⟨sender, hmem, hok, rfl⟩

/-- Witness for the amended C1 theorem at a concrete room. -/
theorem broadcast_reaches_sender_witness :
    0 ∈ roomMembers (join (join ([] : Registry) "w" 0) "w" 1) "w" ∧
      0 ∉ (∅ : Finset Nat) ∧
      (0, "yo") ∈ (wsBroadcast (join (join ([] : Registry) "w" 0) "w" 1)
        "w" 0 "yo" ∅).2 :=
  ⟨by decide, by decide,
    broadcast_reaches_sender (join (join ([] : Registry) "w" 0) "w" 1) "w" 0
      "yo" ∅ (by decide) (by decide)⟩

/-- Claim C2, counterexample: connections 0 and 1 are in room "r" and the
send to recipient 1 fails during the broadcast of "x" from sender 0.  After
the broadcast, 1 is still a member of "r" and the snapshot a subsequent
broadcast would iterate over still contains 1 — the `except Exception: pass`
swallows the failure without removing the recipient, refuting the claim
that a failed recipient is removed as an implicit Leave. -/
theorem failed_recipient_still_member :
    1 ∈ roomMembers ((wsBroadcast (join (join ([] : Registry) "r" 0) "r" 1)
        "r" 0 "x" {1}).1) "r" ∧
      roomSnapshot ((wsBroadcast (join (join ([] : Registry) "r" 0) "r" 1)
        "r" 0 "x" {1}).1) "r" = [0, 1] := by decide

/-- Claim C2, amended: a per-recipient send failure is caught and ignored
with no effect on membership — the failed recipient remains in the room's
membership set, and a subsequent Broadcast into the same room still
attempts delivery to it (it is still in the snapshot the fan-out loop
iterates over). -/
theorem send_failure_keeps_membership (r : Registry) (key : String)
    (sender : Nat) (msg : String) (bad : Finset Nat) (c : Nat)
    (hbad : c ∈ bad) (hmem : c ∈ roomMembers r key) :
    c ∈ roomMembers (wsBroadcast r key sender msg bad).1 key ∧
      c ∈ roomSnapshot (wsBroadcast r key sender msg bad).1 key := by
  rw [wsBroadcast_fst]
  exact ⟨hmem, mem_roomSnapshot.2 hmem⟩

/-- Witness for the amended C2 theorem at a concrete room. -/
theorem send_failure_keeps_membership_witness :
    1 ∈ ({1} : Finset Nat) ∧
      1 ∈ roomMembers (join (join ([] : Registry) "p" 0) "p" 1) "p" ∧
      1 ∈ roomMembers ((wsBroadcast (join (join ([] : Registry) "p" 0) "p" 1)
        "p" 0 "m" {1}).1) "p" :=
  ⟨by decide, by decide,
    (send_failure_keeps_membership (join (join ([] : Registry) "p" 0) "p" 1)
      "p" 0 "m" {1} 1 (by decide) (by decide)).1⟩

/-- Claim C3, counterexample: connection 7 joins room "lv" and then leaves,
making the membership set empty.  The registry still maps "lv" to the empty
set rather than deleting the entry — `rooms.get(room, set()).discard(ws)`
never deletes the dict entry, refuting the claim that the registry never
retains an entry for a room with zero members. -/
theorem empty_room_entry_retained :
    leave (join ([] : Registry) "lv" 7) "lv" 7 = [("lv", (∅ : Finset Nat))] ∧
      lookupRoom (leave (join ([] : Registry) "lv" 7) "lv" 7) "lv" =
        some (∅ : Finset Nat) := by decide

/-- Claim C3, amended: Leave removes the connection from the room's
membership set but never deletes the room's entry from the registry — a
room whose last member leaves remains in the mapping with an empty
membership set. -/
theorem leave_keeps_room_entry (r : Registry) (key : String) (c : Nat)
    (s : Finset Nat) (h : lookupRoom r key = some s) :
    lookupRoom (leave r key c) key = some (s.erase c) :=
  lookupRoom_leave r key c s h

/-- Witness for the amended C3 theorem: the last member of a one-member
room leaves, and the entry survives holding the empty set. -/
theorem leave_keeps_room_entry_witness :
    lookupRoom ([("q", ({3} : Finset Nat))] : Registry) "q" = some {3} ∧
      lookupRoom (leave ([("q", ({3} : Finset Nat))] : Registry) "q" 3) "q" =
        some (({3} : Finset Nat).erase 3) :=
  ⟨by decide,
    leave_keeps_room_entry [("q", {3})] "q" 3 {3} (by decide)⟩

/-- Claim C4: every connection that is a member of the room at the instant
of the broadcast and whose send does not fail receives exactly one copy of
the message — the fan-out iterates over a duplicate-free snapshot of the
membership set, skipping no member and visiting none twice. -/
theorem broadcast_exactly_once (r : Registry) (key : String) (sender : Nat)
    (msg : String) (bad : Finset Nat) (c : Nat)
    (hmem : c ∈ roomMembers r key) (hok : c ∉ bad) :
    ((wsBroadcast r key sender msg bad).2).count (c, msg) = 1 :=
  count_one_of_nodup_of_mem (wsBroadcast_snd_nodup r key sender msg bad)
    (mem_wsBroadcast_snd.2 ⟨c, hmem, hok, rfl⟩)

/-- Witness for the C4 theorem at a concrete room. -/
theorem broadcast_exactly_once_witness :
    2 ∈ roomMembers (join (join (join ([] : Registry) "t" 0) "t" 1) "t" 2)
        "t" ∧
      2 ∉ ({1} : Finset Nat) ∧
      ((wsBroadcast (join (join (join ([] : Registry) "t" 0) "t" 1) "t" 2)
        "t" 0 "z" {1}).2).count (2, "z") = 1 :=
  ⟨by decide, by decide,
    broadcast_exactly_once (join (join (join ([] : Registry) "t" 0) "t" 1)
      "t" 2) "t" 0 "z" {1} 2 (by decide) (by decide)⟩

/-- Claim C5: Join always succeeds with no error case — it maps the room
key to its previous membership set with the connection inserted, creating
the entry when the key is absent; joining the same connection a second time
is set-idempotent, and the connection is a member afterwards (set semantics
absorb the duplicate, so it appears exactly once). -/
theorem join_always_succeeds (r : Registry) (key : String) (c : Nat) :
    lookupRoom (join r key c) key = some (insert c (roomMembers r key)) ∧
      join (join r key c) key c = join r key c ∧
      c ∈ roomMembers (join r key c) key :=
  ⟨lookupRoom_join r key c, join_join r key c, by
    rw [roomMembers, lookupRoom_join r key c]
    exact Finset.mem_insert_self c _⟩

/-- Claim C6: Leave is idempotent — removing the same connection from the
same room twice yields the same registry as removing it once, and a Leave
whose connection is already absent from the room's membership is a no-op
leaving the registry unchanged. -/
theorem leave_idempotent (r : Registry) (key : String) (c : Nat) :
    leave (leave r key c) key c = leave r key c ∧
      (c ∉ roomMembers r key → leave r key c = r) :=
  ⟨leave_leave r key c, fun h => leave_of_not_mem h⟩

/-- Witness for the C6 theorem: a double Leave on a concrete room, and a
Leave of a connection that is not a member leaving the registry unchanged. -/
theorem leave_idempotent_witness :
    leave (leave ([("a", ({1, 2} : Finset Nat))] : Registry) "a" 1) "a" 1 =
        leave ([("a", ({1, 2} : Finset Nat))] : Registry) "a" 1 ∧
      leave ([("a", ({1, 2} : Finset Nat))] : Registry) "a" 5 =
        [("a", ({1, 2} : Finset Nat))] :=
  ⟨(leave_idempotent [("a", {1, 2})] "a" 1).1,
    (leave_idempotent [("a", {1, 2})] "a" 5).2 (by decide)⟩

/-- Claim C7: a Broadcast into, or a Leave from, a room key that is absent
from the registry or mapped to an empty membership set is a no-op — no send
is attempted, no error is raised (the operations are total), and the
registry is unchanged. -/
theorem absent_room_noop (r : Registry) (key : String) (sender : Nat)
    (msg : String) (bad : Finset Nat) (c : Nat)
    (h : lookupRoom r key = none ∨ lookupRoom r key = some ∅) :
    (wsBroadcast r key sender msg bad).2 = [] ∧
      (wsBroadcast r key sender msg bad).1 = r ∧
      leave r key c = r := by
  have hmem : roomMembers r key = ∅ := by
    rcases h with h | h <;> rw [roomMembers, h] <;> rfl
  refine ⟨?_, wsBroadcast_fst r key sender msg bad, ?_⟩
  · rw [wsBroadcast_snd, roomSnapshot_eq_nil hmem, List.filterMap_nil]
  · exact leave_of_not_mem (by rw [hmem]; exact Finset.not_mem_empty c)

/-- Witness for the C7 theorem at a concrete registry, with one absent key
and one key mapped to the empty set. -/
theorem absent_room_noop_witness :
    (lookupRoom ([("e", (∅ : Finset Nat))] : Registry) "e" = none ∨
      lookupRoom ([("e", (∅ : Finset Nat))] : Registry) "e" =
        some (∅ : Finset Nat)) ∧
      (wsBroadcast ([("e", (∅ : Finset Nat))] : Registry) "e" 0 "h"
        ∅).2 = [] ∧
      leave ([("e", (∅ : Finset Nat))] : Registry) "e" 4 =
        [("e", (∅ : Finset Nat))] :=
  ⟨Or.inr (by decide),
    (absent_room_noop [("e", ∅)] "e" 0 "h" ∅ 4 (Or.inr (by decide))).1,
    (absent_room_noop [("e", ∅)] "e" 0 "h" ∅ 4 (Or.inr (by decide))).2.2⟩

/-- Claim C8: a raising send to one recipient is confined to that
recipient — the exception is caught inside the loop body, the fan-out is a
total function out of which no error propagates, and every other member of
the snapshot whose own send does not fail is still delivered to. -/
theorem send_failure_confined (r : Registry) (key : String) (sender : Nat)
    (msg : String) (bad : Finset Nat) (cbad : Nat) (c : Nat)
    (hfail : cbad ∈ bad) (hmem : c ∈ roomMembers r key) (hok : c ∉ bad) :
    (c, msg) ∈ (wsBroadcast r key sender msg bad).2 :=
  mem_wsBroadcast_snd.2 ⟨c, hmem, hok, rfl⟩

/-- Witness for the C8 theorem: recipient 1 fails in a three-member room
and recipient 2, visited after the failure, is still delivered to. -/
theorem send_failure_confined_witness :
    1 ∈ ({1} : Finset Nat) ∧
      2 ∈ roomMembers (join (join (join ([] : Registry) "u" 0) "u" 1) "u" 2)
        "u" ∧
      2 ∉ ({1} : Finset Nat) ∧
      (2, "k") ∈ (wsBroadcast (join (join (join ([] : Registry) "u" 0) "u" 1)
        "u" 2) "u" 0 "k" {1}).2 :=
  ⟨by decide, by decide, by decide,
    send_failure_confined (join (join (join ([] : Registry) "u" 0) "u" 1)
      "u" 2) "u" 0 "k" {1} 1 2 (by decide) (by decide) (by decide)⟩

/-- Claim C9: Broadcast never mutates the registry — the fan-out loop body
only sends (or swallows a send failure) and the registry after the fan-out,
whatever the failure set, is the very registry it started from, so no
connection is added to or removed from any room by the broadcast itself. -/
theorem broadcast_frame (r : Registry) (key : String) (sender : Nat)
    (msg : String) (bad : Finset Nat) :
    (wsBroadcast r key sender msg bad).1 = r :=
  foldl_fanout_fst bad msg (roomSnapshot r key) (r, [])

/-- Claim C10: the payload is forwarded verbatim — every delivery the
fan-out performs carries exactly the string the sender's receive returned,
character for character, with no transformation. -/
theorem broadcast_verbatim (r : Registry) (key : String) (sender : Nat)
    (msg : String) (bad : Finset Nat) (p : Nat × String)
    (hp : p ∈ (wsBroadcast r key sender msg bad).2) : p.2 = msg := by
  obtain ⟨c, _, _, rfl⟩ := mem_wsBroadcast_snd.1 hp
  rfl

/-- Witness for the C10 theorem at a concrete delivery. -/
theorem broadcast_verbatim_witness :
    (1, "vb") ∈ (wsBroadcast (join (join ([] : Registry) "v" 0) "v" 1)
        "v" 0 "vb" ∅).2 ∧
      ((1 : Nat), "vb").2 = "vb" :=
  ⟨by decide,
    broadcast_verbatim (join (join ([] : Registry) "v" 0) "v" 1) "v" 0 "vb"
      ∅ (1, "vb") (by decide)⟩

end LovePing
